import Mathlib

/-!
Verification of the klask-rs search core (src/klask-rs/src) against its
natural-language specification.

The Rust sources are shallowly embedded: Rust `&str`/`String` values become
`List Char` (`Str`), with byte positions modelled through `Char.utf8Size`;
tantivy queries become the `Qry` AST below; the tantivy searcher/parser/regex
engine (an external crate, not part of this repository) is abstracted either
by oracle parameters or by an explicit executable model noted at the relevant
definition.  Every definition is translated from the Rust source file and line
region named in its doc comment.
-/

deriving instance DecidableEq for Except

namespace Klask

/-- Rust strings are embedded as lists of characters. -/
abbrev Str := List Char

/-- Sum of the UTF-8 byte sizes of the characters: Rust `str::len()`. -/
def utf8Len (s : Str) : Nat := (s.map Char.utf8Size).sum

/-- Rust `str::split(pred)`: splits at every character satisfying `p`,
keeping empty pieces (so `"rs,".split(',') = ["rs", ""]`). -/
def splitWhen (p : Char → Bool) : Str → List Str
  | [] => [[]]
  | c :: rest =>
    if p c then [] :: splitWhen p rest
    else
      match splitWhen p rest with
      | [] => [[c]]
      | piece :: pieces => (c :: piece) :: pieces

/-- Rust `str::split(sep)` for a single separator character. -/
def splitOnSep (sep : Char) : Str → List Str := splitWhen (fun c => c == sep)

/-- Rust `str::trim_end_matches(p)`: drop matching characters from the end. -/
def trimEndWhen (p : Char → Bool) (s : Str) : Str := (s.reverse.dropWhile p).reverse

/-- Rust `str::trim_matches(p)`: drop matching characters from both ends. -/
def trimWhen (p : Char → Bool) (s : Str) : Str := trimEndWhen p (s.dropWhile p)

/-- Rust `str::trim()` (whitespace from both ends). -/
def trimChars (s : Str) : Str := trimWhen Char.isWhitespace s

/-- The schema's named fields (services/search.rs, `build_schema`, lines
191-212).  `size` is a u64 fast field and is addressed by range queries only,
so it does not appear here. -/
inductive FieldId where
  | file_id
  | file_name
  | file_path
  | content
  | repository
  | project
  | version
  | extension
deriving DecidableEq

/-- One indexed document with the stored fields of `FileData`
(services/search.rs lines 25-36). -/
structure FileDoc where
  file_id : Str
  file_name : Str
  file_path : Str
  content : Str
  repository : Str
  project : Str
  version : Str
  extension : Str
  size : Nat
deriving DecidableEq

/-- Stored string value of a field of a document. -/
def fieldStr (d : FileDoc) : FieldId → Str
  | .file_id => d.file_id
  | .file_name => d.file_name
  | .file_path => d.file_path
  | .content => d.content
  | .repository => d.repository
  | .project => d.project
  | .version => d.version
  | .extension => d.extension

/-- Embedded tantivy query tree.  A `BooleanQuery` over a clause vector is
folded to binary conjunction/disjunction (`andAll` / `orAll` below); `parsed`
stands for the opaque result of `QueryParser::parse_query`, `regexQ` for a
compiled per-field `RegexQuery`. -/
inductive Qry where
  | allQ
  | noneQ
  | parsed (text : Str)
  | term (field : FieldId) (value : Str)
  | rangeSize (lo : Option Nat) (hi : Option Nat)
  | regexQ (field : FieldId) (pattern : Str)
  | orQ (l r : Qry)
  | andQ (l r : Qry)
deriving DecidableEq

/-- `BooleanQuery` whose clauses all carry `Occur::Should`. -/
def orAll (cs : List Qry) : Qry := cs.foldr Qry.orQ Qry.noneQ

/-- `BooleanQuery` whose clauses all carry `Occur::Must`. -/
def andAll (cs : List Qry) : Qry := cs.foldr Qry.andQ Qry.allQ

/-- Query evaluation against one document.  `tm` is the oracle for parsed
text queries and `rm` the oracle for regex queries (both delegated to the
tantivy engine); `term` uses the exact-keyword semantics of `STRING` fields
and `rangeSize` the inclusive-lower / exclusive-upper bounds used by the
source's `RangeQuery::new` calls. -/
def qryMatches (tm : Str → FileDoc → Bool) (rm : FieldId → Str → FileDoc → Bool)
    (d : FileDoc) : Qry → Bool
  | .allQ => true
  | .noneQ => false
  | .parsed t => tm t d
  | .term f v => decide (fieldStr d f = v)
  | .rangeSize lo hi =>
    (match lo with
     | none => true
     | some a => decide (a ≤ d.size)) &&
    (match hi with
     | none => true
     | some b => decide (d.size < b))
  | .regexQ f p => rm f p d
  | .orQ l r => qryMatches tm rm d l || qryMatches tm rm d r
  | .andQ l r => qryMatches tm rm d l && qryMatches tm rm d r

/-- `searcher.search(query, Count)` over a concrete document list. -/
def countDocs (tm : Str → FileDoc → Bool) (rm : FieldId → Str → FileDoc → Bool)
    (docs : List FileDoc) (q : Qry) : Nat :=
  (docs.filter (fun d => qryMatches tm rm d q)).length

/-- The `SearchQuery` request record (services/search.rs lines 69-83). -/
structure SearchQuery where
  query : Str
  repository_filter : Option Str
  project_filter : Option Str
  version_filter : Option Str
  extension_filter : Option Str
  min_size : Option Nat
  max_size : Option Nat
  limit : Nat
  offset : Nat
  include_facets : Bool
  fuzzy_search : Bool
  regex_search : Bool
deriving DecidableEq

/-! ## Facet aggregation (services/search.rs, `collect_facets_from_search_results`) -/

/-- The `SIZE_BUCKETS` constant (services/search.rs lines 17-23).  Note: the
source declares five buckets, the last one labelled `> 1 MB`. -/
def SIZE_BUCKETS : List (Str × Option Nat × Option Nat) :=
  [("< 1 KB".data, none, some 1024),
   ("1 KB - 10 KB".data, some 1024, some (10 * 1024)),
   ("10 KB - 100 KB".data, some (10 * 1024), some (100 * 1024)),
   ("100 KB - 1 MB".data, some (100 * 1024), some (1024 * 1024)),
   ("> 1 MB".data, some (1024 * 1024), none)]

/-- Text leaf used by every facet query (services/search.rs lines 1137-1150
and 1379-1392): `AllQuery` for an empty or `"*"` query, otherwise the parsed
query (a parse failure also falls back to `AllQuery`; the parser itself is
external, so its successful result is the opaque `.parsed`). -/
def facetTextQuery (sq : SearchQuery) : Qry :=
  if trimChars sq.query = [] ∨ sq.query = "*".data then .allQ else .parsed sq.query

/-- Filter-value extraction used by all facet-side query builders
(e.g. services/search.rs line 1155): split on `,`, trim, drop empties. -/
def facetFilterValues (filter : Str) : List Str :=
  ((splitOnSep ',' filter).map trimChars).filter (fun v => v ≠ [])

/-- The facet-side filter clause for one dimension: an OR `BooleanQuery` of
term queries over the non-empty trimmed values, or no clause at all when no
value remains (services/search.rs lines 1153-1171 and parallel blocks). -/
def facetDimClauses (field : FieldId) : Option Str → List Qry
  | none => []
  | some filter =>
    let vals := facetFilterValues filter
    if vals = [] then [] else [orAll (vals.map (fun v => Qry.term field v))]

/-- `build_query_with_filters` (services/search.rs lines 1129-1241): text
leaf plus the filters of the dimensions whose flag is set; a single clause
stands alone, otherwise a `Must` conjunction.  No size clause is ever
added. -/
def build_query_with_filters (sq : SearchQuery)
    (includeRepository includeProject includeVersion includeExtension : Bool) : Qry :=
  let clauses : List Qry :=
    [facetTextQuery sq]
    ++ (if includeRepository then facetDimClauses .repository sq.repository_filter else [])
    ++ (if includeProject then facetDimClauses .project sq.project_filter else [])
    ++ (if includeVersion then facetDimClauses .version sq.version_filter else [])
    ++ (if includeExtension then facetDimClauses .extension sq.extension_filter else [])
  match clauses with
  | [q] => q
  | qs => andAll qs

/-- The four faceted term dimensions. -/
inductive FacetDim where
  | repository
  | project
  | version
  | extension
deriving DecidableEq

/-- The aggregation query used for each term dimension (services/search.rs
lines 1250-1345): `build_query_with_filters` with the dimension's own flag
cleared and the three others set. -/
def termFacetQuery (sq : SearchQuery) : FacetDim → Qry
  | .repository => build_query_with_filters sq false true true true
  | .project => build_query_with_filters sq true false true true
  | .version => build_query_with_filters sq true true false true
  | .extension => build_query_with_filters sq true true true false

/-- `get_size_bucket_query` (services/search.rs lines 1482-1607): for one
size bucket, rebuild text leaf plus all four dimension filters, then append
the bucket's range query; the caller's `min_size`/`max_size` are never
consulted. -/
def get_size_bucket_query (sq : SearchQuery) (lo hi : Option Nat) : Qry :=
  let clauses : List Qry :=
    [facetTextQuery sq]
    ++ facetDimClauses .repository sq.repository_filter
    ++ facetDimClauses .project sq.project_filter
    ++ facetDimClauses .version sq.version_filter
    ++ facetDimClauses .extension sq.extension_filter
    ++ [Qry.rangeSize lo hi]
  match clauses with
  | [q] => q
  | qs => andAll qs

/-- The `size_ranges` facet list (services/search.rs lines 1609-1624): one
`(label, count)` pair per entry of `SIZE_BUCKETS`, counting with the bucket
query.  `count` abstracts `searcher.search(…, &Count)`. -/
def collectSizeRangeFacets (count : Qry → Nat) (sq : SearchQuery) : List (Str × Nat) :=
  SIZE_BUCKETS.map (fun b => (b.1, count (get_size_bucket_query sq b.2.1 b.2.2)))

/-- The six size-bucket labels required by the specification (spec §6
"Size buckets (bit-exact)") and asserted by the repository's own test
`tests/search_size_facets_test.rs` (`assert_eq!(facets.size_ranges.len(), 6)`). -/
def claimedSizeBucketLabels : List Str :=
  ["< 1 KB".data, "1 KB - 10 KB".data, "10 KB - 100 KB".data,
   "100 KB - 1 MB".data, "1 MB - 10 MB".data, "> 10 MB".data]

/-- The facet query that claim C4 asserts the code builds for a term
dimension: text leaf, the size-range filter when a bound is set, and the
filters of every dimension other than the facet dimension itself.  This
definition follows the claim's words, for comparison with
`build_query_with_filters`. -/
def claimFacetQueryC4 (sq : SearchQuery) (dim : FacetDim) : Qry :=
  let clauses : List Qry :=
    [facetTextQuery sq]
    ++ (if sq.min_size.isSome || sq.max_size.isSome
        then [Qry.rangeSize sq.min_size sq.max_size] else [])
    ++ (if dim = .repository then [] else facetDimClauses .repository sq.repository_filter)
    ++ (if dim = .project then [] else facetDimClauses .project sq.project_filter)
    ++ (if dim = .version then [] else facetDimClauses .version sq.version_filter)
    ++ (if dim = .extension then [] else facetDimClauses .extension sq.extension_filter)
  match clauses with
  | [q] => q
  | qs => andAll qs

/-- The amended form of claim C4: same as `claimFacetQueryC4` but with the
size-range filter omitted (the code never adds it to a term-dimension facet
query). -/
def amendedFacetQueryC4 (sq : SearchQuery) (dim : FacetDim) : Qry :=
  let clauses : List Qry :=
    [facetTextQuery sq]
    ++ (if dim = .repository then [] else facetDimClauses .repository sq.repository_filter)
    ++ (if dim = .project then [] else facetDimClauses .project sq.project_filter)
    ++ (if dim = .version then [] else facetDimClauses .version sq.version_filter)
    ++ (if dim = .extension then [] else facetDimClauses .extension sq.extension_filter)
  match clauses with
  | [q] => q
  | qs => andAll qs

/-! ## Search-path filter clauses (services/search.rs, `search`, lines 560-681) -/

/-- The values the main search path derives from a comma-separated filter
string (services/search.rs line 565 and parallels): split on `,` and trim.
Unlike the facet path, empty pieces are NOT dropped. -/
def searchFilterValues (filter : Str) : List Str :=
  (splitOnSep ',' filter).map trimChars

/-- The filter clause the main search path builds for one exact-match
dimension (services/search.rs lines 563-584 and the three parallel blocks):
a bare `TermQuery` for a single value, otherwise an OR `BooleanQuery` over
all values. -/
def searchDimFilterClause (field : FieldId) (filter : Str) : Qry :=
  match searchFilterValues filter with
  | [v] => .term field v
  | vs => orAll (vs.map (fun v => Qry.term field v))

/-- The filter clause claim C5 asserts is built: the OR of term queries over
exactly the pieces that are non-empty after trimming (this definition follows
the claim's words, for comparison with `searchDimFilterClause`). -/
def claimDimFilterClauseC5 (field : FieldId) (filter : Str) : Qry :=
  match (searchFilterValues filter).filter (fun v => v ≠ []) with
  | [v] => .term field v
  | vs => orAll (vs.map (fun v => Qry.term field v))

/-! ## Index store and document upsert (services/search.rs lines 143-296) -/

/-- Index state: `staged` is the writer's view with all staged operations
applied in issue order, `committed` is the reader's view.  The tantivy
engine applies a `delete_query` to every document added before it, whether
committed or staged, and `commit` + `reader.reload` publishes the writer
view; this state machine models exactly that interface. -/
structure IndexState where
  staged : List FileDoc
  committed : List FileDoc
deriving DecidableEq

/-- Model of the engine's default text analyzer (`TEXT` fields): split on
non-alphanumeric characters, drop empties and tokens longer than 40
characters, lowercase.  ASCII lowercasing (`Char.toLower`) suffices for the
inputs considered here. -/
def tokenize (s : Str) : List Str :=
  (((splitWhen (fun c => !c.isAlphanum) s).filter (fun t => t ≠ []))
    |>.filter (fun t => t.length ≤ 40)).map (fun t => t.map Char.toLower)

/-- A `TermQuery` against a `TEXT` field: the raw query term (term queries
bypass the analyzer) matches a document iff it equals one of the tokens the
default analyzer indexed for the field's stored value. -/
def termQueryMatchesText (term value : Str) : Bool :=
  (tokenize value).contains term

/-- `upsert_file` (services/search.rs lines 249-280): delete every document
matched by `TermQuery(Term::from_field_text(file_id, &file_id_str))`, then
add the new document.  `build_schema` (lines 191-212) declares `file_id` as
`TEXT | STORED | FAST`, a tokenized field, so the term query matches the
documents whose indexed `file_id` tokens contain the full id string
(`Uuid::to_string()`, a hyphenated lowercase UUID). -/
def upsert_file (d : FileDoc) (s : IndexState) : IndexState :=
  { s with
      staged := s.staged.filter (fun x => !termQueryMatchesText d.file_id x.file_id) ++ [d] }

/-- `commit` (services/search.rs lines 290-296): flush the writer and reload
the reader, so the reader view becomes the writer view. -/
def commit (s : IndexState) : IndexState :=
  { s with committed := s.staged }

/-- Modelled from the spec: the plain-mode text leaf for a single lowercase
search term matches a document when the term is a token of `content`,
`file_name` or `file_path` (spec §4.3 layer 1: the standard analyzer over
those three fields).  The query parser itself lives in the external tantivy
crate. -/
def termMatchesDoc (tok : Str) (d : FileDoc) : Bool :=
  (tokenize d.content).contains tok
    || (tokenize d.file_name).contains tok
    || (tokenize d.file_path).contains tok

/-- `search` with a single-term plain query and no filters: the reported
`total` is the number of committed documents matched by the text leaf
(services/search.rs lines 683-684, `Count` collector over the final query). -/
def searchTotalTerm (s : IndexState) (tok : Str) : Nat :=
  (s.committed.filter (fun d => termMatchesDoc tok d)).length

/-! ## Health classification (models/index_metrics.rs, api/admin/search.rs,
services/search_metrics.rs) -/

/-- `IssueSeverity` (models/index_metrics.rs lines 157-167), declared in the
order High, Medium, Low and deriving `Ord`. -/
inductive IssueSeverity where
  | high
  | medium
  | low
deriving DecidableEq

/-- The rank Rust's `#[derive(Ord)]` gives each variant: its declaration
index, so `High < Medium < Low`. -/
def severityRank : IssueSeverity → Nat
  | .high => 0
  | .medium => 1
  | .low => 2

/-- `HealthStatus` (models/index_metrics.rs lines 83-92). -/
inductive HealthStatus where
  | healthy
  | warning
  | degraded
deriving DecidableEq

/-- `HealthLevel` (models/index_metrics.rs lines 133-142). -/
inductive HealthLevel where
  | healthy
  | warning
  | critical
deriving DecidableEq

/-- A health issue: severity plus description (models/index_metrics.rs lines
144-155; the `metric_value`/`threshold` display strings are numeric
formatting only and carry no logic). -/
structure HealthIssue where
  severity : IssueSeverity
  description : Str
deriving DecidableEq

/-- The fields of `HealthCheckDetails` that feed issue identification
(models/index_metrics.rs lines 111-130).  The index size is carried as a
rational, matching the exact f64 comparisons against 500.0/1000.0 for the
values arising here. -/
structure HealthCheckDetails where
  segment_count : Nat
  segment_health : HealthLevel
  cache_health : HealthLevel
  deletion_health : HealthLevel
  index_size_mb : ℚ
  size_health : HealthLevel
deriving DecidableEq

/-- `perform_health_checks_internal` (api/admin/search.rs lines 292-321;
identical logic in services/search_metrics.rs lines 196-233). -/
def perform_health_checks_internal (segmentCount : Nat) (totalSizeMb : ℚ) : HealthCheckDetails :=
  { segment_count := segmentCount
    segment_health :=
      if segmentCount ≤ 20 then .healthy
      else if segmentCount ≤ 25 then .warning
      else .critical
    cache_health := .healthy
    deletion_health := .healthy
    index_size_mb := totalSizeMb
    size_health :=
      if totalSizeMb < 500 then .healthy
      else if totalSizeMb < 1000 then .warning
      else .critical }

/-- `identify_issues_internal` (api/admin/search.rs lines 323-361; identical
logic in services/search_metrics.rs lines 236-274). -/
def identify_issues_internal (checks : HealthCheckDetails) : List HealthIssue :=
  (if checks.segment_health = .critical then
     [{ severity := .high, description := "Too many segments in index".data }]
   else if checks.segment_health = .warning then
     [{ severity := .medium,
        description := "Segment count is high, consider optimization".data }]
   else [])
  ++ (if checks.size_health = .critical then
        [{ severity := .high,
           description := "Index size is very large, may impact performance".data }]
      else if checks.size_health = .warning then
        [{ severity := .medium, description := "Index size is getting large".data }]
      else [])

/-- `issues.iter().map(|i| i.severity).max()`: the maximum under the derived
`Ord` (`Iterator::max` keeps the later element on ties). -/
def maxSeverityRust (l : List IssueSeverity) : Option IssueSeverity :=
  l.foldl
    (fun acc s =>
      match acc with
      | none => some s
      | some m => some (if severityRank s < severityRank m then m else s))
    none

/-- The overall-status computation of `perform_health_check`
(api/admin/search.rs lines 193-197; identical in services/search_metrics.rs
lines 92-96). -/
def healthStatusOfIssues (issues : List HealthIssue) : HealthStatus :=
  match maxSeverityRust (issues.map (fun i => i.severity)) with
  | some .high => .degraded
  | some .medium => .warning
  | _ => .healthy

/-- `perform_health_check` end to end: stats in, (status, issues) out
(api/admin/search.rs lines 186-219). -/
def perform_health_check (segmentCount : Nat) (totalSizeMb : ℚ) :
    HealthStatus × List HealthIssue :=
  let issues := identify_issues_internal (perform_health_checks_internal segmentCount totalSizeMb)
  (healthStatusOfIssues issues, issues)

/-! ## Regex-mode base query (services/search.rs, `search`, lines 435-485) -/

/-- `anyhow!("Invalid regex pattern '{}': {}", query, e)` (line 449). -/
def invalidRegexMsg (pattern e : Str) : Str :=
  "Invalid regex pattern '".data ++ pattern ++ "': ".data ++ e

/-- `anyhow!("Regex pattern '{}' did not match any searchable fields", query)`
(lines 479-482). -/
def noFieldsMsg (pattern : Str) : Str :=
  "Regex pattern '".data ++ pattern ++ "' did not match any searchable fields".data

/-- Regex-mode base-query construction (services/search.rs lines 435-485).
`cres f` is the outcome of `RegexQuery::from_pattern(&query, f)` in the
external engine: `none` on success, `some e` with the engine's error
otherwise.  A `content` failure returns the invalid-pattern error at once;
`file_name` and `file_path` failures are skipped silently; an empty clause
list yields the distinct no-fields error. -/
def buildRegexBaseQuery (cres : FieldId → Option Str) (pattern : Str) : Except Str Qry :=
  match cres .content with
  | some e => .error (invalidRegexMsg pattern e)
  | none =>
    let cl1 : List Qry := [Qry.regexQ .content pattern]
    let cl2 : List Qry :=
      match cres .file_name with
      | none => cl1 ++ [Qry.regexQ .file_name pattern]
      | some _ => cl1
    let cl3 : List Qry :=
      match cres .file_path with
      | none => cl2 ++ [Qry.regexQ .file_path pattern]
      | some _ => cl2
    if cl3.isEmpty then .error (noFieldsMsg pattern)
    else .ok (orAll cl3)

/-- Whether an `Except` result is a success. -/
def exceptIsOk {ε α : Type} : Except ε α → Bool
  | .ok _ => true
  | .error _ => false

/-- The per-field compile outcome in which only `content` fails: the
counterexample input for claim C6. -/
def cresContentFails : FieldId → Option Str :=
  fun f => if f = .content then some "unsupported".data else none

/-! ## Regex validator (api/regex_validator.rs) -/

/-- `MAX_REGEX_LENGTH` (api/regex_validator.rs line 5). -/
def MAX_REGEX_LENGTH : Nat := 500

/-- `MAX_NESTING_DEPTH` (api/regex_validator.rs line 6). -/
def MAX_NESTING_DEPTH : Nat := 3

/-- `DANGEROUS_PATTERNS` (api/regex_validator.rs lines 7-13). -/
def DANGEROUS_PATTERNS : List Str :=
  ["(+)+".data, "(*)*".data, "(\x7b)?\x7b".data, "(|)*".data, "(|)+".data]

/-- Rust `str::contains(substring)`; for the ASCII-only needles used here,
byte-level containment coincides with character-list containment. -/
def isSub (needle : Str) : Str → Bool
  | [] => List.isPrefixOf needle []
  | c :: rest => List.isPrefixOf needle (c :: rest) || isSub needle rest

/-- Message of the length check (api/regex_validator.rs lines 33-37). -/
def exceedsLenMsg (n : Nat) : Str :=
  "Regex pattern exceeds max length of ".data ++ (Nat.repr MAX_REGEX_LENGTH).data
    ++ " characters (current: ".data ++ (Nat.repr n).data ++ ")".data

/-- Message of the empty-pattern check (api/regex_validator.rs line 42). -/
def emptyPatternMsg : Str := "Regex pattern cannot be empty".data

/-- Message of the dangerous-pattern check (api/regex_validator.rs
lines 48-51). -/
def dangerousMsg (d : Str) : Str :=
  "Pattern detected as potentially dangerous (ReDoS risk): contains '".data ++ d ++ "'".data

/-- Message for an unmatched `)` (api/regex_validator.rs line 91). -/
def unmatchedCloseMsg : Str := "Unmatched closing parenthesis in regex pattern".data

/-- Message for an unmatched `(` (api/regex_validator.rs line 117). -/
def unmatchedOpenMsg : Str := "Unmatched opening parenthesis in regex pattern".data

/-- Message of the nesting-depth check (api/regex_validator.rs lines
122-125). -/
def tooManyNestedMsg (found : Nat) : Str :=
  "Pattern has too many nested groups (max ".data ++ (Nat.repr MAX_NESTING_DEPTH).data
    ++ " levels allowed, found ".data ++ (Nat.repr found).data ++ ")".data

/-- Message of the deep-quantifier check (api/regex_validator.rs line 132). -/
def deepQuantMsg : Str :=
  "Pattern has quantifier on deeply nested group (ReDoS risk detected)".data

/-- The character scan of `validate_nesting_and_quantifiers`
(api/regex_validator.rs lines 68-113): tracks the current depth, the maximum
depth, and the depth of every group closed with a following quantifier
(`+`, `*` or an opening curly brace); an unmatched `)` aborts with its
error. -/
def scanParens : Str → Nat → Nat → List Nat → Except Str (Nat × Nat × List Nat)
  | [], depth, maxDepth, quants => .ok (depth, maxDepth, quants)
  | c :: rest, depth, maxDepth, quants =>
    if c = '(' then
      scanParens rest (depth + 1) (Nat.max maxDepth (depth + 1)) quants
    else if c = ')' then
      if depth = 0 then .error unmatchedCloseMsg
      else
        scanParens rest (depth - 1) maxDepth
          (match rest.head? with
           | some c2 => if c2 = '+' ∨ c2 = '*' ∨ c2 = '\x7b' then quants ++ [depth] else quants
           | none => quants)
    else
      scanParens rest depth maxDepth quants

/-- `validate_nesting_and_quantifiers` (api/regex_validator.rs lines
62-137). -/
def validate_nesting_and_quantifiers (pattern : Str) : Except Str Unit :=
  if !pattern.contains '(' && !pattern.contains ')' then .ok ()
  else
    match scanParens pattern 0 0 [] with
    | .error e => .error e
    | .ok (depth, maxDepth, quantDepths) =>
      if depth > 0 then .error unmatchedOpenMsg
      else if maxDepth > MAX_NESTING_DEPTH then .error (tooManyNestedMsg maxDepth)
      else if quantDepths.any (fun q => decide (2 < q) && decide (2 < maxDepth)) then
        .error deepQuantMsg
      else .ok ()

/-- `validate_regex_pattern` (api/regex_validator.rs lines 30-59).  Lengths
are byte lengths (`str::len`). -/
def validate_regex_pattern (pattern : Str) : Except Str Unit :=
  if utf8Len pattern > MAX_REGEX_LENGTH then .error (exceedsLenMsg (utf8Len pattern))
  else if pattern = [] then .error emptyPatternMsg
  else
    match DANGEROUS_PATTERNS.find? (fun d => isSub d pattern) with
    | some d => .error (dangerousMsg d)
    | none => validate_nesting_and_quantifiers pattern

/-- The parenthesis-nesting depth of a pattern, computed independently of
the validator: running depth, `(` increments, `)` saturating-decrements. -/
def parenMaxDepthAux : Str → Nat → Nat → Nat
  | [], _, maxDepth => maxDepth
  | c :: rest, depth, maxDepth =>
    if c = '(' then parenMaxDepthAux rest (depth + 1) (Nat.max maxDepth (depth + 1))
    else if c = ')' then parenMaxDepthAux rest (depth - 1) maxDepth
    else parenMaxDepthAux rest depth maxDepth

/-- Maximum group nesting depth of a pattern. -/
def parenMaxDepth (pattern : Str) : Nat := parenMaxDepthAux pattern 0 0

/-! ## Document locator wire format (services/search.rs lines 738 and
857-922) -/

/-- Rust `str::parse::<u32>()`: an optional leading `+`, then one or more
decimal digits whose value fits in 32 bits; anything else fails. -/
def parseU32 (s : Str) : Option Nat :=
  let t := if s.head? = some '+' then s.tail else s
  if t = [] then none
  else if t.all Char.isDigit then
    let v := t.foldl (fun acc c => acc * 10 + (c.toNat - 48)) 0
    if v < 4294967296 then some v else none
  else none

/-- Decimal rendering of an unsigned integer, as produced by Rust's `{}`
formatting of a `u32`. -/
def renderNat (n : Nat) : Str :=
  if n = 0 then ['0']
  else ((Nat.digits 10 n).map (fun d => Char.ofNat (48 + d))).reverse

/-- The locator string `format!("{}:{}", segment_ord, doc_id)`
(services/search.rs line 738). -/
def encodeDocAddress (segmentOrd docId : Nat) : Str :=
  renderNat segmentOrd ++ ':' :: renderNat docId

/-- Message for a malformed locator shape (services/search.rs line 861). -/
def invalidFormatMsg : Str :=
  "Invalid doc_address format, expected 'segment_ord:doc_id'".data

/-- Message for an unparsable segment ordinal (services/search.rs line 865). -/
def invalidSegMsg (part : Str) : Str :=
  "Invalid segment_ord in doc_address: ".data ++ part

/-- Message for an unparsable doc id (services/search.rs line 866). -/
def invalidDocMsg (part : Str) : Str :=
  "Invalid doc_id in doc_address: ".data ++ part

/-- The locator-parsing prefix of `get_file_by_doc_address`
(services/search.rs lines 857-868): split on `:`, require exactly two
parts, parse each as `u32`; on success the function proceeds to the
engine lookup with the decoded `DocAddress`. -/
def parseDocAddress (s : Str) : Except Str (Nat × Nat) :=
  match splitOnSep ':' s with
  | [p0, p1] =>
    match parseU32 p0 with
    | none => .error (invalidSegMsg p0)
    | some segmentOrd =>
      match parseU32 p1 with
      | none => .error (invalidDocMsg p1)
      | some docId => .ok (segmentOrd, docId)
  | _ => .error invalidFormatMsg

/-! ## Snippet generation (services/search.rs, `generate_optimized_snippet`,
lines 776-828) -/

/-- Take exactly `n` bytes from the front of a string; `none` when `n` is
not a character boundary (in Rust, slicing `&s[..n]` there panics) or runs
past the end. -/
def takeBytes : Str → Nat → Option Str
  | _, 0 => some []
  | [], _ + 1 => none
  | c :: rest, k + 1 =>
    if c.utf8Size ≤ k + 1 then (takeBytes rest (k + 1 - c.utf8Size)).map (fun pre => c :: pre)
    else none

/-- `.replace('<', "&lt;").replace('>', "&gt;")` on a string slice. -/
def htmlEscape (s : Str) : Str :=
  s.flatMap (fun c =>
    if c = '<' then "&lt;".data
    else if c = '>' then "&gt;".data
    else [c])

/-- The clean-terms extraction (services/search.rs lines 788-797): split the
query on whitespace, strip trailing `*?~`/digits, strip surrounding quotes
and parentheses, lowercase, drop empties.  `Char.isDigit`/`Char.toLower`
model the ASCII behaviour of `char::is_numeric`/`to_lowercase`. -/
def cleanQueryTerms (query : Str) : List Str :=
  (((splitWhen Char.isWhitespace query).filter (fun t => t ≠ []))
      |>.map (fun t =>
        (trimEndWhen (fun c => c == ')')
          (trimWhen (fun c => c == '"' || c == '(')
            (trimEndWhen (fun c => c == '*' || c == '?' || c == '~' || c.isDigit) t))).map
          Char.toLower))
    |>.filter (fun t => t ≠ [])

/-- Character-wise lowercasing, modelling `str::to_lowercase` for the
size-preserving (ASCII) case. -/
def lowerChars (s : Str) : Str := s.map Char.toLower

/-- Byte offset of the first occurrence of `needle` in the remaining
characters, `acc` bytes already consumed: models `str::find`. -/
def findSubAux (needle : Str) : Str → Nat → Option Nat
  | [], acc => if List.isPrefixOf needle [] then some acc else none
  | c :: rest, acc =>
    if List.isPrefixOf needle (c :: rest) then some acc
    else findSubAux needle rest (acc + c.utf8Size)

/-- Rust `str::find(needle)` returning a byte offset. -/
def findSub (hay needle : Str) : Option Nat := findSubAux needle hay 0

/-- `generate_optimized_snippet` (services/search.rs lines 776-828).
`snippetHtml` is the HTML produced by the external `SnippetGenerator` for
this document, `contentOpt` the stored `content` field.  The result is
`none` when the Rust code panics: the fallback excerpt slices the content
at byte 400 (`&content[..400]`), and the line-number path slices the
content at a byte offset found in a lowercased copy; both slices panic on a
non-boundary offset. -/
def generate_optimized_snippet (snippetHtml query : Str) (contentOpt : Option Str) :
    Option (Str × Option Nat) :=
  let cleanTerms := cleanQueryTerms query
  if trimChars snippetHtml = [] ∧ contentOpt.isSome then
    match contentOpt with
    | some content =>
      if utf8Len content > 400 then
        match takeBytes content 400 with
        | some sliced => some (htmlEscape sliced ++ "...".data, none)
        | none => none
      else some (htmlEscape content, none)
    | none => none
  else
    match contentOpt with
    | some content =>
      match cleanTerms with
      | firstTerm :: _ =>
        match findSub (lowerChars content) firstTerm with
        | some pos =>
          match takeBytes content pos with
          | some sliced =>
            some (snippetHtml, some ((sliced.filter (fun c => c == '\n')).length + 1))
          | none => none
        | none => some (snippetHtml, none)
      | [] => some (snippetHtml, none)
    | none => some (snippetHtml, none)

/-- Content refuting panic-freedom: 399 ASCII bytes, then a two-byte
character straddling byte offset 400, then one more byte (402 bytes in
total, so the over-400 fallback fires). -/
def panicContent : Str := List.replicate 399 'a' ++ ['é', 'b']

/-! ## Concrete inputs used by the evaluation and counterexample theorems -/

/-- A request with every option cleared. -/
def emptySearchQuery : SearchQuery :=
  { query := []
    repository_filter := none
    project_filter := none
    version_filter := none
    extension_filter := none
    min_size := none
    max_size := none
    limit := 0
    offset := 0
    include_facets := false
    fuzzy_search := false
    regex_search := false }

/-- The match-all faceted request of the repository's own size-facet test
(`tests/search_size_facets_test.rs`, test 1). -/
def sqStarFacets : SearchQuery :=
  { emptySearchQuery with query := "*".data, limit := 10, include_facets := true }

/-- A document with only the fields relevant to size facets populated. -/
def sizedDoc (name : Str) (content : Str) (size : Nat) : FileDoc :=
  { file_id := name
    file_name := name
    file_path := name
    content := content
    repository := "repo".data
    project := "repo".data
    version := "main".data
    extension := "txt".data
    size := size }

/-- The six files of `tests/search_size_facets_test.rs` (test 1), one per
claimed bucket: sizes 512, 2048, 50000, 500000, 5000000, 50000000. -/
def sizeFacetTestDocs : List FileDoc :=
  [sizedDoc "file1.txt".data "small file".data 512,
   sizedDoc "file2.txt".data "medium file".data 2048,
   sizedDoc "file3.txt".data "large file".data 50000,
   sizedDoc "file4.txt".data "very large file".data 500000,
   sizedDoc "file5.txt".data "huge file".data 5000000,
   sizedDoc "file6.txt".data "enormous file".data 50000000]

/-- Text-query oracle that matches nothing; unused when the text leaf is
`AllQuery` (query `"*"`). -/
def tmNever : Str → FileDoc → Bool := fun _ _ => false

/-- Regex oracle that matches nothing; facet queries contain no regex
leaf. -/
def rmNever : FieldId → Str → FileDoc → Bool := fun _ _ _ => false

/-- Counterexample request for claim C4: a size filter is set and no
dimension filter is. -/
def sqC4 : SearchQuery :=
  { emptySearchQuery with query := "*".data, min_size := some 1024,
                          limit := 10, include_facets := true }

/-- The E2 document's id: a hyphenated lowercase UUID, the form
`Uuid::to_string()` always produces for the `file_id` field. -/
def e2FileId : Str := "550e8400-e29b-41d4-a716-446655440000".data

/-- First version of the E2 document ("hello network"). -/
def e2DocV1 : FileDoc :=
  { file_id := e2FileId
    file_name := "a.rs".data
    file_path := "src/a.rs".data
    content := "hello network".data
    repository := "repo".data
    project := "repo".data
    version := "main".data
    extension := "rs".data
    size := 13 }

/-- Second version of the E2 document ("goodbye network"), same `file_id`. -/
def e2DocV2 : FileDoc :=
  { e2DocV1 with content := "goodbye network".data, size := 15 }

/-! ## Theorems -/

/-- C1: the claim requires six size buckets `< 1 KB`, `1 KB - 10 KB`,
`10 KB - 100 KB`, `100 KB - 1 MB`, `1 MB - 10 MB`, `> 10 MB`, every bucket
present even at count zero.  Evaluating the embedded facet pipeline on
the six files of the repository's own test (sizes 512, 2048, 50000, 500000,
5000000, 50000000, one per claimed bucket) shows the code emits only five
buckets, the last labelled `> 1 MB` with count 2, so the code contradicts
both the claim and `tests/search_size_facets_test.rs`. -/
theorem sizeBuckets_eval_six_files :
    collectSizeRangeFacets (countDocs tmNever rmNever sizeFacetTestDocs) sqStarFacets =
      [("< 1 KB".data, 1), ("1 KB - 10 KB".data, 1), ("10 KB - 100 KB".data, 1),
       ("100 KB - 1 MB".data, 1), ("> 1 MB".data, 2)] ∧
    SIZE_BUCKETS.map (fun b => b.1) ≠ claimedSizeBucketLabels := by
  decide

/-- C3: the claim requires status Degraded whenever a High-severity issue is
present.  With 26 segments (High issue) and 600 MB (Medium issue) the
issues list contains a High-severity issue, yet the code reports Warning:
the derived `Ord` on `IssueSeverity` declares `High` first, making it the
minimum, so `issues.iter().map(|i| i.severity).max()` returns the least
severe issue present. -/
theorem health_status_eval_mixed_issues :
    ((perform_health_check 26 600).2.map (fun i => i.severity)).contains .high = true ∧
    (perform_health_check 26 600).1 = .warning := by
  decide

set_option maxRecDepth 4000 in
/-- C10: the claim asserts `generate_optimized_snippet` never panics.  On a
stored content of 399 ASCII bytes followed by a two-byte character (so byte
offset 400 is not a character boundary) with an empty generator snippet, the
fallback excerpt `&content[..400]` panics, contradicting the claim and the
code's own "Return first 400 chars" comment. -/
theorem snippet_fallback_panics_eval :
    generate_optimized_snippet [] "zzz".data (some panicContent) = none := by
  decide

/-- C4 counterexample: with `min_size = 1024` set and no dimension filters,
the repository-dimension facet query the code builds is the bare text leaf,
while the claim requires the conjunction with the size-range filter. -/
theorem termFacetQuery_omits_size_counterexample :
    termFacetQuery sqC4 .repository ≠ claimFacetQueryC4 sqC4 .repository := by
  decide

/-- C5 counterexample: for the filter string `"rs,"` the search path builds
an OR that includes a term query for the empty string, not the single term
query over the one non-empty piece that the claim requires. -/
theorem dimFilter_empty_piece_counterexample :
    searchDimFilterClause .extension "rs,".data ≠
      claimDimFilterClauseC5 .extension "rs,".data := by
  decide

/-- C6 counterexample: the claim says a field for which the pattern does not
compile is skipped silently and an error is returned only when all three
fields fail.  With a compile outcome failing only for `content` (a proper
subset of the fields), the builder returns an error. -/
theorem regexBuild_content_fatal_counterexample :
    cresContentFails .file_name = none ∧ cresContentFails .file_path = none ∧
    exceptIsOk (buildRegexBaseQuery cresContentFails "ab".data) = false := by
  decide

/-- C9 counterexample: `"+1:2"` is not of the form `"<decimal>:<decimal>"`
(its first component starts with `+`), yet the locator parser accepts it,
because Rust's `u32` parser permits a leading `+`; the claim requires an
invalid-locator error for every string not of that form. -/
theorem docAddress_plus_sign_counterexample :
    parseDocAddress "+1:2".data = .ok (1, 2) := by
  rfl

/-- C7: the size-bucket facet counts are invariant under the caller's
`min_size`/`max_size` when all other request options are held constant: the
bucket queries are built from the text leaf and the four term-dimension
filters only, never from the caller's size bounds. -/
theorem sizeFacets_ignore_size_filter :
    ∀ (count : Qry → Nat) (sq : SearchQuery) (a b a2 b2 : Option Nat),
      collectSizeRangeFacets count { sq with min_size := a, max_size := b } =
        collectSizeRangeFacets count { sq with min_size := a2, max_size := b2 } := by
  intro count sq a b a2 b2
  simp [collectSizeRangeFacets, get_size_bucket_query, facetTextQuery, facetDimClauses]

/-- C4 amended: the aggregation query for each term dimension D is the
conjunction of the text leaf and the filters of the dimensions other than D;
both D's own filter and the caller's size filter are omitted. -/
theorem termFacetQuery_amended :
    ∀ (sq : SearchQuery) (dim : FacetDim),
      termFacetQuery sq dim = amendedFacetQueryC4 sq dim := by
  intro sq dim
  cases dim <;> rfl

/-- C5 amended: the search path splits on commas and trims, but does not
drop pieces that are empty after trimming — each such piece contributes a
term query for the empty string (see the counterexample for `"rs,"`).  The
claimed clause is built exactly when every piece is non-empty after
trimming. -/
theorem dimFilter_amended :
    ∀ (field : FieldId) (filter : Str),
      (∀ v ∈ searchFilterValues filter, v ≠ []) →
      searchDimFilterClause field filter = claimDimFilterClauseC5 field filter := by
  intro f s h
  unfold searchDimFilterClause claimDimFilterClauseC5
  rw [List.filter_eq_self.mpr (fun a ha => by simpa using h a ha)]
  rfl

/-- Witness for `dimFilter_amended` at the filter string `"rs, txt"`. -/
theorem dimFilter_amended_witness :
    (∀ v ∈ searchFilterValues "rs, txt".data, v ≠ []) ∧
    searchDimFilterClause .extension "rs, txt".data =
      claimDimFilterClauseC5 .extension "rs, txt".data :=
  ⟨by decide, dimFilter_amended .extension "rs, txt".data (by decide)⟩

/-- The invalid-pattern error never coincides with the no-fields error: the
two messages start with different characters. -/
theorem invalidRegexMsg_ne_noFieldsMsg (p e : Str) : invalidRegexMsg p e ≠ noFieldsMsg p := by
  intro h
  have h1 : "Invalid regex pattern '".data = 'I' :: "nvalid regex pattern '".data := by decide
  have h2 : "Regex pattern '".data = 'R' :: "egex pattern '".data := by decide
  unfold invalidRegexMsg noFieldsMsg at h
  rw [h1, h2, List.cons_append, List.cons_append] at h
  injection h with hhead _
  exact absurd hhead (by decide)

/-- C6 amended: in regex mode a `content`-field compile failure is fatal —
the builder succeeds exactly when the pattern compiles for the `content`
field; `file_name`/`file_path` failures are skipped silently, and the
distinct "did not match any searchable fields" error is unreachable because
`content` success always leaves at least one clause. -/
theorem regexBuild_amended :
    ∀ (cres : FieldId → Option Str) (p : Str),
      (exceptIsOk (buildRegexBaseQuery cres p) = true ↔ cres .content = none) ∧
      buildRegexBaseQuery cres p ≠ .error (noFieldsMsg p) := by
  intro cres p
  unfold buildRegexBaseQuery
  cases hc : cres .content with
  | some e =>
    refine ⟨by simp [exceptIsOk, hc], ?_⟩
    intro h
    injection h with h'
    exact invalidRegexMsg_ne_noFieldsMsg p e h'
  | none =>
    cases hn : cres .file_name <;> cases hp : cres .file_path <;>
      simp [exceptIsOk, List.isEmpty]

/-- C2: the claim requires that after re-upserting a `file_id` and
committing, exactly one live document with that id remains and a term that
occurs only in the first version counts zero.  Evaluating the embedded
pipeline at the E2 input refutes it: the delete's term is the full
hyphenated UUID, which the default analyzer of the tokenized `file_id`
field (`TEXT` in `build_schema`) never indexes as a single token, so
`upsert_file`'s delete matches nothing — two live documents remain and the
search for "hello" returns `total = 1`.  The code contradicts its own
comment ("Delete ALL existing documents with the same file_id to ensure no
duplicates") and the spec's uniqueness invariant. -/
theorem upsert_tokenized_delete_eval :
    termQueryMatchesText e2FileId e2FileId = false ∧
    ((commit (upsert_file e2DocV2 (commit (upsert_file e2DocV1 ⟨[], []⟩)))).committed.filter
        (fun x => decide (x.file_id = e2FileId))).length = 2 ∧
    searchTotalTerm (commit (upsert_file e2DocV2 (commit (upsert_file e2DocV1 ⟨[], []⟩))))
        "hello".data = 1 := by
  decide

/-- When the validator's scan succeeds, the maximum depth it reports is the
parenthesis-nesting depth of the scanned characters. -/
theorem scanParens_ok_maxDepth :
    ∀ (p : Str) (d m : Nat) (q : List Nat) (df mf : Nat) (qf : List Nat),
      scanParens p d m q = .ok (df, mf, qf) → mf = parenMaxDepthAux p d m := by
  intro p
  induction p with
  | nil =>
    intro d m q df mf qf h
    simp [scanParens] at h
    simp [parenMaxDepthAux, ← h.2.1]
  | cons c rest ih =>
    intro d m q df mf qf h
    by_cases hc : c = '('
    · rw [scanParens, if_pos hc] at h
      rw [parenMaxDepthAux, if_pos hc]
      exact ih _ _ _ _ _ _ h
    · by_cases hc2 : c = ')'
      · rw [scanParens, if_neg hc, if_pos hc2] at h
        rw [parenMaxDepthAux, if_neg hc, if_pos hc2]
        by_cases hd : d = 0
        · rw [if_pos hd] at h
          exact absurd h (by simp)
        · rw [if_neg hd] at h
          exact ih _ _ _ _ _ _ h
      · rw [scanParens, if_neg hc, if_neg hc2] at h
        rw [parenMaxDepthAux, if_neg hc, if_neg hc2]
        exact ih _ _ _ _ _ _ h

/-- The scan fails only with the unmatched-closing-parenthesis message. -/
theorem scanParens_error_msg :
    ∀ (p : Str) (d m : Nat) (q : List Nat) (e : Str),
      scanParens p d m q = .error e → e = unmatchedCloseMsg := by
  intro p
  induction p with
  | nil =>
    intro d m q e h
    simp [scanParens] at h
  | cons c rest ih =>
    intro d m q e h
    by_cases hc : c = '('
    · rw [scanParens, if_pos hc] at h
      exact ih _ _ _ _ h
    · by_cases hc2 : c = ')'
      · rw [scanParens, if_neg hc, if_pos hc2] at h
        by_cases hd : d = 0
        · rw [if_pos hd] at h
          injection h.symm with h'
        · rw [if_neg hd] at h
          exact ih _ _ _ _ h
      · rw [scanParens, if_neg hc, if_neg hc2] at h
        exact ih _ _ _ _ h

/-- Without any opening parenthesis the nesting depth never grows. -/
theorem parenMaxDepthAux_no_open :
    ∀ (p : Str) (d m : Nat), (∀ c ∈ p, c ≠ '(') → parenMaxDepthAux p d m = m := by
  intro p
  induction p with
  | nil => intro d m _; rfl
  | cons c rest ih =>
    intro d m h
    have hc : c ≠ '(' := h c (by simp)
    have hrest : ∀ x ∈ rest, x ≠ '(' := fun x hx => h x (by simp [hx])
    by_cases hc2 : c = ')'
    · rw [parenMaxDepthAux, if_neg hc, if_pos hc2]
      exact ih _ _ hrest
    · rw [parenMaxDepthAux, if_neg hc, if_neg hc2]
      exact ih _ _ hrest

/-- A list with a non-empty left part of an append is non-empty. -/
theorem append_left_ne_nil {α : Type} {a : List α} (h : a ≠ []) (b : List α) : a ++ b ≠ [] :=
  fun hh => h (List.append_eq_nil.mp hh).1

/-- C8: the validator (1) rejects every pattern of byte length 501 or more
with the length message, (2) rejects the empty pattern, (3) accepts every
pattern of byte length exactly 500 that violates no other rule, (4) rejects
every pattern whose maximum group nesting depth is 4 or more, (5) accepts a
pattern whose nesting depth is exactly 3 absent other violations, and
(6) every rejection carries a non-empty reason string. -/
theorem validate_regex_pattern_spec :
    (∀ p : Str, 500 < utf8Len p →
       validate_regex_pattern p = .error (exceedsLenMsg (utf8Len p))) ∧
    validate_regex_pattern [] = .error emptyPatternMsg ∧
    (∀ p : Str, utf8Len p = 500 →
       (∀ d ∈ DANGEROUS_PATTERNS, isSub d p = false) →
       validate_nesting_and_quantifiers p = .ok () →
       validate_regex_pattern p = .ok ()) ∧
    (∀ p : Str, 4 ≤ parenMaxDepth p → ∃ e, validate_regex_pattern p = .error e) ∧
    (∀ (p : Str) (qs : List Nat), scanParens p 0 0 [] = .ok (0, 3, qs) →
       (∀ q ∈ qs, q ≤ 2) → utf8Len p ≤ 500 → p ≠ [] →
       (∀ d ∈ DANGEROUS_PATTERNS, isSub d p = false) →
       validate_regex_pattern p = .ok () ∧ parenMaxDepth p = 3) ∧
    (∀ p e : Str, validate_regex_pattern p = .error e → e ≠ []) := by
  refine ⟨?lenRej, rfl, ?lenAcc, ?depthRej, ?depthAcc, ?reasons⟩
  case lenRej =>
    intro p h
    unfold validate_regex_pattern
    rw [if_pos (show utf8Len p > MAX_REGEX_LENGTH from h)]
  case lenAcc =>
    intro p hlen hdanger hnest
    have hne : p ≠ [] := by
      intro h0
      rw [h0] at hlen
      simp [utf8Len] at hlen
    have hfind : DANGEROUS_PATTERNS.find? (fun d => isSub d p) = none :=
      List.find?_eq_none.mpr (fun d hd => by simp [hdanger d hd])
    unfold validate_regex_pattern
    rw [if_neg (by simp [MAX_REGEX_LENGTH, hlen]), if_neg hne, hfind]
    exact hnest
  case depthRej =>
    intro p hdepth
    by_cases hlen : utf8Len p > MAX_REGEX_LENGTH
    · exact ⟨_, by unfold validate_regex_pattern; rw [if_pos hlen]⟩
    have hne : p ≠ [] := by
      intro h0
      rw [h0] at hdepth
      exact absurd hdepth (by decide)
    cases hfind : DANGEROUS_PATTERNS.find? (fun d => isSub d p) with
    | some d =>
      exact ⟨_, by unfold validate_regex_pattern; rw [if_neg hlen, if_neg hne, hfind]⟩
    | none =>
      have houter : validate_regex_pattern p = validate_nesting_and_quantifiers p := by
        unfold validate_regex_pattern
        rw [if_neg hlen, if_neg hne, hfind]
      rw [houter]
      have hopen : p.contains '(' = true := by
        by_contra hnc
        have hmem : ∀ c ∈ p, c ≠ '(' := by
          intro c hc hcEq
          exact hnc (by simpa using hcEq ▸ hc)
        have h0 := parenMaxDepthAux_no_open p 0 0 hmem
        rw [parenMaxDepth, h0] at hdepth
        exact absurd hdepth (by decide)
      have hcond : (!p.contains '(' && !p.contains ')') = false := by
        rw [hopen]
        simp
      unfold validate_nesting_and_quantifiers
      rw [hcond]
      simp only [Bool.false_eq_true, if_false]
      cases hscan : scanParens p 0 0 [] with
      | error e => exact ⟨e, rfl⟩
      | ok res =>
        obtain ⟨df, mf, qf⟩ := res
        have hmf : mf = parenMaxDepth p :=
          scanParens_ok_maxDepth p 0 0 [] df mf qf hscan
        dsimp only
        by_cases hdf : df > 0
        · rw [if_pos hdf]
          exact ⟨_, rfl⟩
        · rw [if_neg hdf, if_pos (show mf > MAX_NESTING_DEPTH by
            rw [hmf]; exact Nat.lt_of_lt_of_le (by decide) hdepth)]
          exact ⟨_, rfl⟩
  case depthAcc =>
    intro p qs hscan hq hlen hne hdanger
    have hfind : DANGEROUS_PATTERNS.find? (fun d => isSub d p) = none :=
      List.find?_eq_none.mpr (fun d hd => by simp [hdanger d hd])
    have hnest : validate_nesting_and_quantifiers p = .ok () := by
      unfold validate_nesting_and_quantifiers
      by_cases hcond : (!p.contains '(' && !p.contains ')') = true
      · rw [if_pos hcond]
      · rw [if_neg hcond, hscan]
        dsimp only
        rw [if_neg (by decide : ¬((0 : Nat) > 0))]
        rw [if_neg (show ¬((3 : Nat) > MAX_NESTING_DEPTH) by decide)]
        have hany : qs.any (fun q => decide (2 < q) && decide (2 < 3)) = false := by
          rw [List.any_eq_false]
          intro q hqs
          have h2q : ¬(2 < q) := by
            have := hq q hqs
            omega
          simp [h2q]
        rw [hany]
        rfl
    refine ⟨?_, (scanParens_ok_maxDepth p 0 0 [] 0 3 qs hscan).symm⟩
    unfold validate_regex_pattern
    rw [if_neg (show ¬(utf8Len p > MAX_REGEX_LENGTH) by
        simp only [MAX_REGEX_LENGTH]; omega), if_neg hne, hfind]
    exact hnest
  case reasons =>
    intro p e h
    unfold validate_regex_pattern at h
    by_cases h1 : utf8Len p > MAX_REGEX_LENGTH
    · rw [if_pos h1] at h
      injection h with h'
      subst h'
      unfold exceedsLenMsg
      apply append_left_ne_nil
      apply append_left_ne_nil
      decide
    rw [if_neg h1] at h
    by_cases h2 : p = []
    · rw [if_pos h2] at h
      injection h with h'
      subst h'
      decide
    rw [if_neg h2] at h
    cases hfind : DANGEROUS_PATTERNS.find? (fun d => isSub d p) with
    | some d =>
      rw [hfind] at h
      injection h with h'
      subst h'
      unfold dangerousMsg
      apply append_left_ne_nil
      apply append_left_ne_nil
      decide
    | none =>
      rw [hfind] at h
      unfold validate_nesting_and_quantifiers at h
      by_cases hcond : (!p.contains '(' && !p.contains ')') = true
      · rw [if_pos hcond] at h
        exact absurd h (by simp)
      rw [if_neg hcond] at h
      cases hscan : scanParens p 0 0 [] with
      | error e2 =>
        rw [hscan] at h
        dsimp only at h
        injection h with h'
        have := scanParens_error_msg p 0 0 [] e2 hscan
        subst h'
        rw [this]
        decide
      | ok res =>
        obtain ⟨df, mf, qf⟩ := res
        rw [hscan] at h
        dsimp only at h
        by_cases hdf : df > 0
        · rw [if_pos hdf] at h
          injection h with h'
          subst h'
          decide
        rw [if_neg hdf] at h
        by_cases hmf : mf > MAX_NESTING_DEPTH
        · rw [if_pos hmf] at h
          injection h with h'
          subst h'
          unfold tooManyNestedMsg
          apply append_left_ne_nil
          apply append_left_ne_nil
          decide
        rw [if_neg hmf] at h
        by_cases hany : qf.any (fun q => decide (2 < q) && decide (2 < mf)) = true
        · rw [if_pos hany] at h
          injection h with h'
          subst h'
          decide
        · rw [if_neg hany] at h
          exact absurd h (by simp)

set_option maxRecDepth 8000 in
/-- Witness for `validate_regex_pattern_spec`: a 501-byte pattern is
rejected, a 500-byte pattern of plain letters is accepted, the depth-3
pattern `(((a)))` is accepted, and the depth-4 pattern `((((a))))` is
rejected. -/
theorem validate_regex_pattern_spec_witness :
    (500 < utf8Len (List.replicate 501 'a') ∧
     validate_regex_pattern (List.replicate 501 'a') =
       .error (exceedsLenMsg (utf8Len (List.replicate 501 'a')))) ∧
    validate_regex_pattern (List.replicate 500 'a') = .ok () ∧
    (validate_regex_pattern "(((a)))".data = .ok () ∧ parenMaxDepth "(((a)))".data = 3) ∧
    (∃ e, validate_regex_pattern "((((a))))".data = .error e) :=
  ⟨⟨by decide, validate_regex_pattern_spec.1 _ (by decide)⟩,
   validate_regex_pattern_spec.2.2.1 _ (by decide) (by decide) (by decide),
   validate_regex_pattern_spec.2.2.2.2.1 "(((a)))".data [] (by decide) (by decide)
     (by decide) (by decide) (by decide),
   validate_regex_pattern_spec.2.2.2.1 _ (by decide)⟩

/-- The decimal digit characters: converting back to `Nat` undoes
`Char.ofNat`. -/
theorem char_digit_toNat (d : Nat) (h : d < 10) : (Char.ofNat (48 + d)).toNat = 48 + d := by
  interval_cases d <;> decide

/-- The decimal digit characters satisfy `Char.isDigit`. -/
theorem char_digit_isDigit (d : Nat) (h : d < 10) : (Char.ofNat (48 + d)).isDigit = true := by
  interval_cases d <;> decide

/-- A digit character is not the separator `:`. -/
theorem digit_ne_colon (c : Char) (h : c.isDigit = true) : (c == ':') = false := by
  rw [beq_eq_false_iff_ne]
  intro hc
  subst hc
  exact absurd h (by decide)

/-- `splitWhen` on a string without separators returns that string alone. -/
theorem splitWhen_no_match (p : Char → Bool) :
    ∀ s : Str, (∀ c ∈ s, p c = false) → splitWhen p s = [s] := by
  intro s
  induction s with
  | nil => intro _; rfl
  | cons c rest ih =>
    intro h
    rw [splitWhen, h c (by simp)]
    simp only [Bool.false_eq_true, if_false]
    rw [ih (fun x hx => h x (by simp [hx]))]

/-- `splitWhen` across the first separator: the prefix without separators
becomes the first piece. -/
theorem splitWhen_append_match (p : Char → Bool) (c0 : Char) (hc0 : p c0 = true) :
    ∀ (xs ys : Str), (∀ c ∈ xs, p c = false) →
      splitWhen p (xs ++ c0 :: ys) = xs :: splitWhen p ys := by
  intro xs
  induction xs with
  | nil =>
    intro ys _
    rw [List.nil_append, splitWhen, hc0]
    simp
  | cons x xs' ih =>
    intro ys h
    rw [List.cons_append, splitWhen, h x (by simp)]
    simp only [Bool.false_eq_true, if_false]
    rw [ih ys (fun c hc => h c (by simp [hc]))]

/-- Folding the base-10 accumulation over the rendered digit characters
recovers the number. -/
theorem foldl_digit_chars :
    ∀ (L : List Nat) (acc : Nat), (∀ d ∈ L, d < 10) →
      ((L.map (fun d => Char.ofNat (48 + d))).reverse).foldl
          (fun a c => a * 10 + (c.toNat - 48)) acc
        = acc * 10 ^ L.length + Nat.ofDigits 10 L := by
  intro L
  induction L with
  | nil =>
    intro acc _
    simp [Nat.ofDigits]
  | cons d L' ih =>
    intro acc h
    have hd : d < 10 := h d (by simp)
    have hL' : ∀ x ∈ L', x < 10 := fun x hx => h x (by simp [hx])
    rw [List.map_cons, List.reverse_cons, List.foldl_append, ih acc hL']
    simp only [List.foldl_cons, List.foldl_nil]
    rw [char_digit_toNat d hd, Nat.ofDigits_cons]
    have hsub : 48 + d - 48 = d := by omega
    rw [hsub]
    simp only [List.length_cons]
    ring

/-- Every character of a rendered number is a decimal digit. -/
theorem renderNat_all_digits (n : Nat) : ∀ c ∈ renderNat n, c.isDigit = true := by
  intro c hc
  by_cases h0 : n = 0
  · subst h0
    simp [renderNat] at hc
    subst hc
    decide
  · rw [renderNat, if_neg h0] at hc
    rw [List.mem_reverse] at hc
    obtain ⟨d, hd, rfl⟩ := List.mem_map.mp hc
    exact char_digit_isDigit d (Nat.digits_lt_base (by norm_num) hd)

/-- A rendered number is never the empty string. -/
theorem renderNat_ne_nil (n : Nat) : renderNat n ≠ [] := by
  by_cases h0 : n = 0
  · subst h0
    decide
  · rw [renderNat, if_neg h0]
    simp [Nat.digits_ne_nil_iff_ne_zero, h0]

/-- Rust's `u32` parser undoes the decimal rendering of every value below
`2^32`. -/
theorem parseU32_renderNat (n : Nat) (h : n < 4294967296) :
    parseU32 (renderNat n) = some n := by
  have hplus : ¬((renderNat n).head? = some '+') := by
    cases hrn : renderNat n with
    | nil => simp
    | cons c rest =>
      have hcd : c.isDigit = true := renderNat_all_digits n c (by rw [hrn]; simp)
      simp only [List.head?]
      intro hs
      injection hs with hc'
      subst hc'
      exact absurd hcd (by decide)
  have hne : ¬(renderNat n = []) := renderNat_ne_nil n
  have hall : (renderNat n).all Char.isDigit = true :=
    List.all_eq_true.mpr (fun c hc => renderNat_all_digits n c hc)
  have hfold : (renderNat n).foldl (fun a c => a * 10 + (c.toNat - 48)) 0 = n := by
    by_cases h0 : n = 0
    · subst h0
      decide
    · rw [renderNat, if_neg h0,
         foldl_digit_chars (Nat.digits 10 n) 0
           (fun d hd => Nat.digits_lt_base (by norm_num) hd)]
      simp [Nat.ofDigits_digits]
  unfold parseU32
  dsimp only
  rw [if_neg hplus, if_neg hne, if_pos hall, hfold, if_pos h]

/-- C9 amended: encoding a locator `(segment_ord, doc_id)` with both values
below `2^32` and parsing the string back is the identity; and the parser
succeeds exactly when the string splits on `:` into exactly two parts and
each part is accepted by Rust's `u32` parser (which also tolerates a leading
`+`, the one departure from the claim; invalid shapes yield the typed
invalid-locator errors). -/
theorem docAddress_roundtrip_amended :
    (∀ segmentOrd docId : Nat, segmentOrd < 4294967296 → docId < 4294967296 →
       parseDocAddress (encodeDocAddress segmentOrd docId) = .ok (segmentOrd, docId)) ∧
    (∀ s : Str, (∃ q, parseDocAddress s = .ok q) ↔
       ∃ a b, splitOnSep ':' s = [a, b] ∧ (parseU32 a).isSome ∧ (parseU32 b).isSome) := by
  constructor
  · intro seg did hs hd
    have hxs : ∀ c ∈ renderNat seg, (c == ':') = false :=
      fun c hc => digit_ne_colon c (renderNat_all_digits seg c hc)
    have hys : ∀ c ∈ renderNat did, (c == ':') = false :=
      fun c hc => digit_ne_colon c (renderNat_all_digits did c hc)
    have hsplit : splitOnSep ':' (encodeDocAddress seg did)
        = [renderNat seg, renderNat did] := by
      rw [encodeDocAddress]
      unfold splitOnSep
      rw [splitWhen_append_match _ ':' (by decide) _ _ hxs,
          splitWhen_no_match _ _ hys]
    unfold parseDocAddress
    rw [hsplit]
    simp [parseU32_renderNat seg hs, parseU32_renderNat did hd]
  · intro s
    constructor
    · rintro ⟨q, hq⟩
      unfold parseDocAddress at hq
      rcases hL : splitOnSep ':' s with _ | ⟨a, _ | ⟨b, _ | ⟨c, rest⟩⟩⟩
      · rw [hL] at hq
        exact absurd hq (by simp)
      · rw [hL] at hq
        exact absurd hq (by simp)
      · rw [hL] at hq
        dsimp only at hq
        cases hpa : parseU32 a with
        | none =>
          rw [hpa] at hq
          exact absurd hq (by simp)
        | some va =>
          rw [hpa] at hq
          cases hpb : parseU32 b with
          | none =>
            rw [hpb] at hq
            exact absurd hq (by simp)
          | some vb =>
            exact ⟨a, b, rfl, by simp [hpa], by simp [hpb]⟩
      · rw [hL] at hq
        exact absurd hq (by simp)
    · rintro ⟨a, b, hab, hpa, hpb⟩
      unfold parseDocAddress
      rw [hab]
      obtain ⟨va, hva⟩ := Option.isSome_iff_exists.mp hpa
      obtain ⟨vb, hvb⟩ := Option.isSome_iff_exists.mp hpb
      simp [hva, hvb]

/-- Witness for `docAddress_roundtrip_amended` at the locator `(3, 7)`. -/
theorem docAddress_roundtrip_amended_witness :
    3 < 4294967296 ∧ 7 < 4294967296 ∧
    parseDocAddress (encodeDocAddress 3 7) = .ok (3, 7) :=
  ⟨by decide, by decide, docAddress_roundtrip_amended.1 3 7 (by decide) (by decide)⟩

end Klask
